import Mathlib

/-!
Shallow embedding of `tfrun.py`, a safety-interlock wrapper around the
terraform binary.  Strings are modelled as `List Char` so that every
definition evaluates by kernel reduction; Python string primitives
(`str.strip`, `str.lstrip`, `str.split("|")`) are translated below with
their Python semantics (ASCII whitespace).  Fallible Python code
(functions that `raise`) is translated to `Except`.
-/

/-- The Python whitespace characters stripped by `str.strip()` /
`str.lstrip()` (the ASCII ones; exotic control and Unicode space
characters do not occur in this development). -/
def isPySpace (c : Char) : Bool :=
  c = ' ' || c = '\t' || c = '\n' || c = '\r' || c = '\x0b' || c = '\x0c'

/-- Python `s.lstrip()`: drop leading whitespace. -/
def pyLstrip (cs : List Char) : List Char :=
  cs.dropWhile isPySpace

/-- Python `s.strip()`: drop leading and trailing whitespace. -/
def pyStrip (cs : List Char) : List Char :=
  ((pyLstrip cs).reverse.dropWhile isPySpace).reverse

/-- Python `s.split("|")`: split on every occurrence of `'|'`;
`"".split("|") == [""]`, so the result is never empty. -/
def pySplitPipe : List Char → List (List Char)
  | [] => [[]]
  | c :: rest =>
    if c = '|' then [] :: pySplitPipe rest
    else
      match pySplitPipe rest with
      | [] => [[c]]
      | f :: fs => (c :: f) :: fs

/-- `Environment` enumeration (tfrun.py lines 49-55). -/
inductive Environment
  | INVALID
  | TESTING
  | DEVELOPMENT
  | STAGING
  | PRODUCTION
deriving DecidableEq, Repr

/-- The lowercase environment name each non-INVALID variant is resolved
from (the strings compared in `CheckEnvironment`, tfrun.py lines 191-198). -/
def envName : Environment → List Char
  | .INVALID => "INVALID".toList
  | .TESTING => "testing".toList
  | .DEVELOPMENT => "development".toList
  | .STAGING => "staging".toList
  | .PRODUCTION => "production".toList

/-- The error conditions of tfrun.py, one per distinct raise/catch site:
`markerNotFound` is the `FileNotFoundError` raised by `open` (caught at
tfrun.py line 163), `invalidEnvironment` the `ValueError` raised in
`CheckEnvironment` (lines 200, 205), `noPlanArtifact` the `ValueError`
raised in `RunTerraformApply` (line 266); the latter two share the Python
exception class but carry different messages. -/
inductive TFErr
  | markerNotFound
  | invalidEnvironment
  | noPlanArtifact
deriving DecidableEq, Repr

/-- `CheckEnvironment(afile)` (tfrun.py lines 176-209) after the file has
been opened: `firstLine` is the first line as returned by `f.readline()`
(it may still carry its newline terminator — the code strips it), and
`currentWorkingDirectory` is `os.path.basename(os.getcwd())`.  The line
is stripped, split on `|`, and on exactly two fields the second field and
the working directory are compared against the four known names. -/
def CheckEnvironment (firstLine currentWorkingDirectory : List Char) :
    Except TFErr Environment :=
  match pySplitPipe (pyStrip firstLine) with
  | [_, line] =>
    if line = "testing".toList ∧ currentWorkingDirectory = "testing".toList then
      .ok .TESTING
    else if line = "development".toList ∧ currentWorkingDirectory = "development".toList then
      .ok .DEVELOPMENT
    else if line = "staging".toList ∧ currentWorkingDirectory = "staging".toList then
      .ok .STAGING
    else if line = "production".toList ∧ currentWorkingDirectory = "production".toList then
      .ok .PRODUCTION
    else .error .invalidEnvironment
  | _ => .error .invalidEnvironment

/-- `CheckEnvironment` including the `open(afile, "r")` step: a missing or
unopenable marker file is modelled as `none` and raises
`FileNotFoundError` (`markerNotFound`); otherwise the first line is read
and checked. -/
def ReadMarkerAndCheck (markerFirstLine : Option (List Char))
    (currentWorkingDirectory : List Char) : Except TFErr Environment :=
  match markerFirstLine with
  | none => .error .markerNotFound
  | some l => CheckEnvironment l currentWorkingDirectory

/-- The terraform subcommands dispatched through `subprocess.call`. -/
inductive Cmd
  | get
  | getUpdate
  | plan
  | apply
  | destroy
  | validate
deriving DecidableEq, BEq, Repr

/-- Observable side effects of one invocation: an external-tool call, or
the deletion (`Path.unlink`) of the `.tfplan` artifact. -/
inductive Ev
  | call (c : Cmd)
  | deletePlan
deriving DecidableEq, BEq, Repr

/-- `RunTerraformPlan()` (tfrun.py lines 226-234): `terraform get`, then
delete a stale `.tfplan` if present, then `terraform plan -out=.tfplan`.
State is the presence of the `.tfplan` artifact; the external
`plan -out=.tfplan` call is modelled as creating it. -/
def RunTerraformPlan (tfplan : Bool) : List Ev × Bool :=
  ([Ev.call .get] ++ (if tfplan then [Ev.deletePlan] else []) ++ [Ev.call .plan],
   true)

/-- `RunTerraformGetUpdate()` (tfrun.py lines 237-241). -/
def RunTerraformGetUpdate : List Ev := [Ev.call .getUpdate]

/-- `RunTerraformValidate()` (tfrun.py lines 244-247). -/
def RunTerraformValidate : List Ev := [Ev.call .validate]

/-- `RunTerraformDestroy()` (tfrun.py lines 269-272). -/
def RunTerraformDestroy : List Ev := [Ev.call .destroy]

/-- `RemoveTFPlanFile()` (tfrun.py lines 250-255): unlink `.tfplan` if it
is a file, otherwise do nothing; the function cannot raise. -/
def RemoveTFPlanFile (tfplan : Bool) : List Ev × Bool :=
  if tfplan then ([Ev.deletePlan], false) else ([], tfplan)

/-- `RunTerraformApply()` (tfrun.py lines 258-267): with a `.tfplan`
present, call apply and then unlink the artifact; otherwise raise
`ValueError` (`noPlanArtifact`) without calling anything. -/
def RunTerraformApply (tfplan : Bool) : Except TFErr (List Ev × Bool) :=
  if tfplan then .ok ([Ev.call .apply, Ev.deletePlan], false)
  else .error .noPlanArtifact

/-- The confirmation test `answer.lstrip() == 'yes'` (tfrun.py lines
111, 122, 133, 144). -/
def ConfirmAnswer (answer : List Char) : Bool :=
  pyLstrip answer = "yes".toList

/-- The inputs of one invocation of `Main()`: the marker file's first
line (`none` when the file is missing or unopenable), the base name of
the current working directory, the positional `action` argument, the
yes flag (`-y`), the operator's reply should a prompt be shown, and
whether `.tfplan` exists at the start. -/
structure Inputs where
  markerFirstLine : Option (List Char)
  cwdBase : List Char
  action : List Char
  yesFlag : Bool
  answer : List Char
  tfplan : Bool

/-- How one invocation of `Main()` ends: normal completion, silent fall
through after a declined confirmation, a caught exception, or the
unsupported-action message (tfrun.py lines 157-160). -/
inductive Outcome
  | completed
  | aborted
  | errored (e : TFErr)
  | unknownAction
deriving DecidableEq, Repr

/-- The observable result of one invocation: the events in dispatch
order, the final presence of `.tfplan`, and the outcome. -/
structure RunResult where
  events : List Ev
  tfplan : Bool
  outcome : Outcome
deriving DecidableEq, Repr

/-- `Main()` (tfrun.py lines 85-173): lstrip the action argument, resolve
the environment (any raise is caught at lines 161-173 and ends the
invocation), then dispatch on the action keyword, prompting first unless
`-y` was given for the four guarded actions. -/
def Main (inp : Inputs) : RunResult :=
  let terraformAction := pyLstrip inp.action
  match ReadMarkerAndCheck inp.markerFirstLine inp.cwdBase with
  | .error e => ⟨[], inp.tfplan, .errored e⟩
  | .ok _ =>
    if terraformAction = "plan".toList then
      if inp.yesFlag then
        let r := RunTerraformPlan inp.tfplan
        ⟨r.1, r.2, .completed⟩
      else if ConfirmAnswer inp.answer then
        let r := RunTerraformPlan inp.tfplan
        ⟨r.1, r.2, .completed⟩
      else ⟨[], inp.tfplan, .aborted⟩
    else if terraformAction = "apply".toList then
      if inp.yesFlag then
        match RunTerraformApply inp.tfplan with
        | .ok r => ⟨r.1, r.2, .completed⟩
        | .error e => ⟨[], inp.tfplan, .errored e⟩
      else if ConfirmAnswer inp.answer then
        match RunTerraformApply inp.tfplan with
        | .ok r => ⟨r.1, r.2, .completed⟩
        | .error e => ⟨[], inp.tfplan, .errored e⟩
      else ⟨[], inp.tfplan, .aborted⟩
    else if terraformAction = "destroy".toList then
      if inp.yesFlag then
        ⟨RunTerraformDestroy, inp.tfplan, .completed⟩
      else if ConfirmAnswer inp.answer then
        ⟨RunTerraformDestroy, inp.tfplan, .completed⟩
      else ⟨[], inp.tfplan, .aborted⟩
    else if terraformAction = "get-update".toList then
      if inp.yesFlag then
        ⟨RunTerraformGetUpdate, inp.tfplan, .completed⟩
      else if ConfirmAnswer inp.answer then
        ⟨RunTerraformGetUpdate, inp.tfplan, .completed⟩
      else ⟨[], inp.tfplan, .aborted⟩
    else if terraformAction = "validate".toList then
      ⟨RunTerraformValidate, inp.tfplan, .completed⟩
    else if terraformAction = "removeplanfile".toList then
      let r := RemoveTFPlanFile inp.tfplan
      ⟨r.1, r.2, .completed⟩
    else ⟨[], inp.tfplan, .unknownAction⟩

/-- The six recognized action keywords (tfrun.py lines 104-156). -/
def recognizedActions : List (List Char) :=
  ["plan".toList, "apply".toList, "destroy".toList, "get-update".toList,
   "validate".toList, "removeplanfile".toList]

/-- The second `|`-separated field of a raw line, exactly as the claim
about resolution words it (no stripping): `none` when fewer than two
fields result. -/
def specSecondField (firstLine : List Char) : Option (List Char) :=
  match pySplitPipe firstLine with
  | _ :: f :: _ => some f
  | _ => none

deriving instance DecidableEq for Except

/-- Dropping a whitespace prefix never changes the number of `|`
characters, since `|` is not whitespace. -/
theorem count_pipe_dropWhile (cs : List Char) :
    (cs.dropWhile isPySpace).count '|' = cs.count '|' := by
  induction cs with
  | nil => rfl
  | cons c rest ih =>
    by_cases h : isPySpace c
    · have hc : (c == '|') = false := by
        simp only [isPySpace, Bool.or_eq_true, decide_eq_true_eq] at h
        rcases h with ((((h | h) | h) | h) | h) | h <;> subst h <;> decide
      simp [List.dropWhile_cons, h, ih, List.count_cons, hc]
    · simp [List.dropWhile_cons, h]

/-- Stripping surrounding whitespace never changes the number of `|`
characters. -/
theorem count_pipe_pyStrip (cs : List Char) :
    (pyStrip cs).count '|' = cs.count '|' := by
  unfold pyStrip pyLstrip
  rw [List.count_reverse, count_pipe_dropWhile, List.count_reverse,
    count_pipe_dropWhile]

/-- Splitting on `|` yields one more field than there are `|` characters
(in particular, never the empty list). -/
theorem pySplitPipe_length (cs : List Char) :
    (pySplitPipe cs).length = cs.count '|' + 1 := by
  induction cs with
  | nil => rfl
  | cons c rest ih =>
    by_cases h : c = '|'
    · subst h
      simp [pySplitPipe, List.count_cons, ih]
    · have hc : (c == '|') = false := by simp [h]
      rcases hr : pySplitPipe rest with _ | ⟨f, fs⟩
      · rw [hr] at ih
        simp at ih
      · rw [hr] at ih
        simp [pySplitPipe, if_neg h, hr, List.count_cons, hc] at ih ⊢
        omega

/-- A whitespace prefix is invisible to `lstrip`. -/
theorem pyLstrip_append (ws k : List Char) (h : ∀ c ∈ ws, isPySpace c = true) :
    pyLstrip (ws ++ k) = pyLstrip k := by
  induction ws with
  | nil => rfl
  | cons c rest ih =>
    have hc := h c (List.mem_cons_self c rest)
    simp only [pyLstrip, List.cons_append, List.dropWhile_cons, hc, if_true]
    exact ih fun x hx => h x (List.mem_cons_of_mem _ hx)

/-- `Main` consumes its action argument only through `lstrip`. -/
theorem main_action_congr (inp : Inputs) (a : List Char)
    (h : pyLstrip inp.action = pyLstrip a) :
    Main inp = Main { inp with action := a } := by
  simp only [Main, h]

/-- C1: no external-tool command is ever dispatched unless environment
resolution has first succeeded; when resolution fails, the invocation
ends with that error, no command of any kind runs, and the plan artifact
is untouched. -/
theorem c1_no_dispatch_without_resolution (inp : Inputs) (e : TFErr)
    (h : ReadMarkerAndCheck inp.markerFirstLine inp.cwdBase = .error e) :
    Main inp = ⟨[], inp.tfplan, .errored e⟩ := by
  simp [Main, h]

/-- Witness for C1 at the spec's own scenario: marker declares
`production` but the working directory is `staging`. -/
theorem c1_witness :
    Main ⟨some "#environment|production".toList, "staging".toList,
          "destroy".toList, true, [], false⟩ =
      ⟨[], false, .errored .invalidEnvironment⟩ :=
  c1_no_dispatch_without_resolution _ _ (by decide)

/-- C5: a plan action followed immediately by an apply action consumes
the artifact: plan itself deletes nothing when starting clean and leaves
the artifact present; the following apply deletes it exactly once and
leaves it absent; a second apply with no intervening plan fails with
`noPlanArtifact`. -/
theorem c5_plan_then_apply_consumes_once :
    (RunTerraformPlan false).1.count Ev.deletePlan = 0 ∧
    (RunTerraformPlan false).2 = true ∧
    RunTerraformApply (RunTerraformPlan false).2 =
      .ok ([Ev.call .apply, Ev.deletePlan], false) ∧
    [Ev.call .apply, Ev.deletePlan].count Ev.deletePlan = 1 ∧
    RunTerraformApply false = .error .noPlanArtifact := by decide

/-- C7: the plan action's sequence is exactly: the get subcommand, then
deletion of the stale plan artifact when one is present, then the plan
subcommand creating the new artifact. -/
theorem c7_plan_command_order :
    RunTerraformPlan true =
      ([Ev.call .get, Ev.deletePlan, Ev.call .plan], true) ∧
    RunTerraformPlan false = ([Ev.call .get, Ev.call .plan], true) := by decide

/-- C8: removing the plan file is idempotent: with no artifact it is a
no-op (and, being a total function, never a failure), and a second
removal right after a first one is always the no-op. -/
theorem c8_removeplanfile_idempotent :
    RemoveTFPlanFile false = ([], false) ∧
    ∀ b : Bool, RemoveTFPlanFile ((RemoveTFPlanFile b).2) = ([], false) := by
  decide

/-- C9: a missing or unopenable marker file yields `markerNotFound`, every
failure of the marker-content check yields `invalidEnvironment`, and the
two are distinct error kinds (in the source: `FileNotFoundError` versus
`ValueError`, caught by separate handlers). -/
theorem c9_marker_errors_distinct :
    (∀ cwd, ReadMarkerAndCheck none cwd = .error .markerNotFound) ∧
    (∀ line cwd e, CheckEnvironment line cwd = .error e →
      e = .invalidEnvironment) ∧
    TFErr.markerNotFound ≠ TFErr.invalidEnvironment := by
  refine ⟨fun cwd => rfl, fun line cwd e h => ?_, by decide⟩
  unfold CheckEnvironment at h
  split at h
  · split_ifs at h
    simp_all
  · simp_all

/-- Witness for C9: a marker line with no `|` at all is a content
failure, hence `invalidEnvironment`. -/
theorem c9_witness : TFErr.invalidEnvironment = TFErr.invalidEnvironment :=
  c9_marker_errors_distinct.2.1 "#environment testing".toList
    "testing".toList _ (by decide)

/-- C4: the apply action with no plan artifact present, once past
resolution and the gate, ends with `noPlanArtifact`, dispatches no
external command, and leaves the artifact state unchanged. -/
theorem c4_apply_without_plan (inp : Inputs) (env : Environment)
    (henv : ReadMarkerAndCheck inp.markerFirstLine inp.cwdBase = .ok env)
    (hact : pyLstrip inp.action = "apply".toList)
    (hplan : inp.tfplan = false)
    (hgate : inp.yesFlag = true ∨ ConfirmAnswer inp.answer = true) :
    Main inp = ⟨[], false, .errored .noPlanArtifact⟩ := by
  rcases hgate with hg | hg
  · simp +decide [Main, henv, hact, hplan, hg, RunTerraformApply]
  · cases hy : inp.yesFlag <;>
      simp +decide [Main, henv, hact, hplan, hg, RunTerraformApply]

/-- Witness for C4: apply in a clean `testing` directory with the bypass
flag set. -/
theorem c4_witness :
    Main ⟨some "#environment|testing".toList, "testing".toList,
          "apply".toList, true, [], false⟩ =
      ⟨[], false, .errored .noPlanArtifact⟩ :=
  c4_apply_without_plan _ .TESTING (by decide) (by decide) rfl (Or.inl rfl)

/-- C6: whenever the marker's first line does not split on `|` into
exactly two fields, resolution fails with `invalidEnvironment` whatever
the working directory is; and resolution never returns the `INVALID`
sentinel as a success value. -/
theorem c6_malformed_marker :
    (∀ line cwd, (pySplitPipe line).length ≠ 2 →
      CheckEnvironment line cwd = .error .invalidEnvironment) ∧
    (∀ line cwd, CheckEnvironment line cwd ≠ .ok .INVALID) := by
  constructor
  · intro line cwd h
    have hlen : (pySplitPipe (pyStrip line)).length = (pySplitPipe line).length := by
      rw [pySplitPipe_length, pySplitPipe_length, count_pipe_pyStrip]
    unfold CheckEnvironment
    rcases hsp : pySplitPipe (pyStrip line) with _ | ⟨a, _ | ⟨l, _ | ⟨c, rest⟩⟩⟩
    · rfl
    · rfl
    · exact absurd (by rw [← hlen, hsp] ; rfl) h
    · rfl
  · intro line cwd
    unfold CheckEnvironment
    split
    · split_ifs <;> simp
    · simp

/-- Witness for C6: a marker line with no `|` (one field) fails, and no
success value is ever `INVALID` at a sample input. -/
theorem c6_witness :
    CheckEnvironment "#environment testing".toList "production".toList =
      .error .invalidEnvironment ∧
    CheckEnvironment "#environment|testing".toList "testing".toList ≠
      .ok .INVALID :=
  ⟨c6_malformed_marker.1 _ _ (by decide), c6_malformed_marker.2 _ _⟩

/-- C2 fails as stated: with first line `#environment|testing ` (trailing
space) and working directory `testing`, resolution succeeds with
`TESTING` although the second `|`-separated field of the first line is
`testing ` and not `testing` — the code strips the whole line before
splitting, so the claimed equivalence is false at this input. -/
theorem c2_counterexample :
    ¬ (CheckEnvironment "#environment|testing ".toList "testing".toList =
          .ok .TESTING ↔
        (specSecondField "#environment|testing ".toList =
            some (envName .TESTING) ∧
          "testing".toList = envName .TESTING)) := by decide

/-- C2 amended: for each of the four environment names, resolution
succeeds with that variant iff the first line, after stripping
surrounding whitespace, splits on `|` into exactly two fields whose
second equals the name, and the working-directory base name equals the
name (both case-sensitively). -/
theorem c2_resolution_iff_amended (E : Environment) (line cwd : List Char)
    (hE : E ≠ .INVALID) :
    CheckEnvironment line cwd = .ok E ↔
      ((∃ tag, pySplitPipe (pyStrip line) = [tag, envName E]) ∧
        cwd = envName E) := by
  constructor
  · intro h
    unfold CheckEnvironment at h
    rcases hsp : pySplitPipe (pyStrip line) with _ | ⟨a, _ | ⟨l, _ | ⟨c, rest⟩⟩⟩ <;>
      rw [hsp] at h <;> simp at h
    split_ifs at h with h1 h2 h3 h4 <;> simp at h <;> subst h
    · exact ⟨⟨a, by rw [h1.1]; rfl⟩, by rw [h1.2]; rfl⟩
    · exact ⟨⟨a, by rw [h2.1]; rfl⟩, by rw [h2.2]; rfl⟩
    · exact ⟨⟨a, by rw [h3.1]; rfl⟩, by rw [h3.2]; rfl⟩
    · exact ⟨⟨a, by rw [h4.1]; rfl⟩, by rw [h4.2]; rfl⟩
  · rintro ⟨⟨tag, hsp⟩, hcwd⟩
    unfold CheckEnvironment
    rw [hsp, hcwd]
    cases E <;> simp_all +decide [envName]

/-- Witness for the amended C2: the canonical `testing` marker in a
`testing` directory resolves to `TESTING`. -/
theorem c2_amended_witness :
    CheckEnvironment "#environment|testing".toList "testing".toList =
      .ok .TESTING :=
  (c2_resolution_iff_amended .TESTING "#environment|testing".toList
      "testing".toList (by decide)).mpr
    ⟨⟨"#environment".toList, by decide⟩, by decide⟩

/-- C3 fails as stated: with the bypass flag unset, operator input
`yes ` (trailing space) trims to exactly `yes`, yet the gate aborts and
dispatches nothing, because the code trims only leading whitespace
(`lstrip`); the claimed equivalence is false at this input. -/
theorem c3_counterexample :
    ¬ (((Main ⟨some "#environment|testing".toList, "testing".toList,
            "plan".toList, false, "yes ".toList, false⟩).outcome ≠ .aborted) ↔
        pyStrip "yes ".toList = "yes".toList) := by decide

/-- C3 amended: for a confirm-required action (plan, apply, destroy,
get-update) with the bypass flag unset, the gate proceeds iff the
operator's input, after trimming leading whitespace only, is exactly the
case-sensitive literal `yes`; any other input aborts with no command
dispatched and the artifact state unchanged. -/
theorem c3_gate_lstrip_amended (inp : Inputs) (env : Environment)
    (henv : ReadMarkerAndCheck inp.markerFirstLine inp.cwdBase = .ok env)
    (hyes : inp.yesFlag = false)
    (hact : pyLstrip inp.action ∈
      ["plan".toList, "apply".toList, "destroy".toList, "get-update".toList]) :
    ((Main inp).outcome ≠ .aborted ↔ pyLstrip inp.answer = "yes".toList) ∧
    ((Main inp).outcome = .aborted →
      (Main inp).events = [] ∧ (Main inp).tfplan = inp.tfplan) := by
  simp only [List.mem_cons, List.not_mem_nil, or_false] at hact
  have hyl : ("yes".toList : List Char) = ['y', 'e', 's'] := by decide
  rw [hyl]
  by_cases hans : pyLstrip inp.answer = ['y', 'e', 's'] <;>
    rcases hact with hact | hact | hact | hact <;>
      cases htf : inp.tfplan <;>
        simp +decide [Main, ConfirmAnswer, henv, hyes, hact, hans, htf,
          RunTerraformApply, RunTerraformPlan, RunTerraformDestroy,
          RunTerraformGetUpdate]

/-- Witness for the amended C3: input `no` on a destroy prompt aborts. -/
theorem c3_gate_witness :
    (Main ⟨some "#environment|testing".toList, "testing".toList,
        "destroy".toList, false, "no".toList, false⟩).outcome ≠ .aborted ↔
      pyLstrip "no".toList = "yes".toList :=
  (c3_gate_lstrip_amended _ .TESTING (by decide) rfl (by decide)).1

/-- C10: the action keyword is only stripped on the left: prepending
whitespace to a recognized keyword changes nothing about the invocation,
while appending a space to it makes it unrecognized (given resolution
succeeded, the invocation then ends with the unsupported-action
message). -/
theorem c10_action_lstrip (inp : Inputs) (ws k : List Char)
    (env : Environment)
    (hk : k ∈ recognizedActions) (hws : ∀ c ∈ ws, isPySpace c = true)
    (henv : ReadMarkerAndCheck inp.markerFirstLine inp.cwdBase = .ok env) :
    Main { inp with action := ws ++ k } = Main { inp with action := k } ∧
    (Main { inp with action := k ++ [' '] }).outcome = .unknownAction := by
  constructor
  · exact main_action_congr { inp with action := ws ++ k } k
      (pyLstrip_append ws k hws)
  · simp only [recognizedActions, List.mem_cons, List.not_mem_nil,
      or_false] at hk
    rcases hk with hk | hk | hk | hk | hk | hk <;> subst hk <;>
      simp +decide [Main, henv]

/-- Witness for C10: `  plan` behaves as `plan`, and `plan ` is
unsupported. -/
theorem c10_witness :
    Main ⟨some "#environment|testing".toList, "testing".toList,
          ("  ".toList ++ "plan".toList), true, [], false⟩ =
      Main ⟨some "#environment|testing".toList, "testing".toList,
            "plan".toList, true, [], false⟩ ∧
    (Main ⟨some "#environment|testing".toList, "testing".toList,
          ("plan".toList ++ [' ']), true, [], false⟩).outcome =
      .unknownAction :=
  c10_action_lstrip
    ⟨some "#environment|testing".toList, "testing".toList, "plan".toList,
      true, [], false⟩
    "  ".toList "plan".toList .TESTING (by decide) (by decide) (by decide)
